import Mathlib

/-!
A verification development for the day/event planning assistant.

The definitions below are a shallow embedding of the Python sources:
  * `app/tools/calendar.py`   — `calendar_lookup`
  * `app/graphs/supervisor.py`— `compute_day_context`, `router_order`
  * `app/graphs/birthday.py`  — the four workflow nodes and `_schedule_home_ops`
  * `app/tools/comms.py`      — `send_invites`, `render_invite_preview`
  * `app/main.py`             — the `/api/nl` edit branch (`nl_command`),
    `birthday_update_date`, `_run_task` and `tick_timeline`.

Modelling conventions:
  * Python `datetime` values are minutes since the Unix epoch (`Int`);
    `datetime.date` values are days since the Unix epoch.  A naive
    `datetime.timestamp()` is modelled as UTC epoch seconds (the code
    only uses it to build task-id strings).
  * Python dicts with a fixed key set become structures; a missing key is
    `none`.  Python truthiness of `None`/`""`/`[]`/`0` is made explicit by
    the `pyOr*` helpers.
  * Strings are compared and transformed code-point-wise, matching Python
    semantics on the ASCII data the program manipulates.
-/

/-- Python lexicographic `<` on strings, by code point. -/
def pyStrLtL : List Char → List Char → Bool
  | [], [] => false
  | [], _ :: _ => true
  | _ :: _, [] => false
  | a :: as, b :: bs =>
    if a.toNat < b.toNat then true
    else if a.toNat = b.toNat then pyStrLtL as bs
    else false

def strLt (a b : String) : Bool := pyStrLtL a.data b.data

/-- Python `<=` on strings. -/
def strLe (a b : String) : Bool := strLt a b || a == b

/-- ASCII lower-casing, as `str.lower()` acts on the ASCII strings used here. -/
def lowerChar (c : Char) : Char :=
  if 65 ≤ c.toNat ∧ c.toNat ≤ 90 then Char.ofNat (c.toNat + 32) else c

def pyLower (s : String) : String := ⟨s.data.map lowerChar⟩

/-- Python `needle in hay` (contiguous substring test). -/
def containsSubL (needle : List Char) : List Char → Bool
  | [] => needle.isEmpty
  | c :: rest => needle.isPrefixOf (c :: rest) || containsSubL needle rest

def strContains (hay needle : String) : Bool := containsSubL needle.data hay.data

/-- Python `str.replace` (all non-overlapping occurrences, left to right);
the program never calls it with an empty pattern. -/
def replaceL (needle repl : List Char) : List Char → List Char
  | [] => []
  | c :: rest =>
    if needle ≠ [] ∧ needle.isPrefixOf (c :: rest) then
      repl ++ replaceL needle repl (List.drop (needle.length - 1) rest)
    else
      c :: replaceL needle repl rest
termination_by l => l.length
decreasing_by
  · simp only [List.length_drop, List.length_cons]; omega
  · simp only [List.length_cons]; omega

def pyReplace (hay needle repl : String) : String :=
  ⟨replaceL needle.data repl.data hay.data⟩

/-- Python slicing `s[:n]` on strings (by code point). -/
def pyTake (s : String) (n : Nat) : String := ⟨s.data.take n⟩

/-- `x or default` for an optional string, with Python truthiness
(`None` and `""` are falsy). -/
def pyOrStr (x : Option String) (dflt : String) : String :=
  match x with
  | some s => if s = "" then dflt else s
  | none => dflt

/-- `x or default` for an optional list (Python: `None` and `[]` are falsy). -/
def pyOrList {α : Type} (x : Option (List α)) (dflt : List α) : List α :=
  match x with
  | some l => if l.isEmpty then dflt else l
  | none => dflt

/-- Python `list.insert(i, x)` (clamps an out-of-range index). -/
def pyInsert {α : Type} (i : Nat) (x : α) (l : List α) : List α :=
  l.take i ++ x :: l.drop i

/-- Python `list.remove(x)` (first occurrence; the code always guards
membership first). -/
def pyRemove (x : String) : List String → List String
  | [] => []
  | y :: ys => if y = x then ys else y :: pyRemove x ys

/-- Split a character list on a separator character (Python `str.split`
with a one-character separator, as the sources use). -/
def splitL (sep : Char) : List Char → List (List Char)
  | [] => [[]]
  | c :: rest =>
    match splitL sep rest with
    | [] => [[c]]
    | h :: t => if c = sep then [] :: h :: t else (c :: h) :: t

def pySplit (s : String) (sep : Char) : List String :=
  (splitL sep s.data).map (fun l => ⟨l⟩)

/-- Python `int(s)` for an unsigned decimal string. -/
def listToNat? (l : List Char) : Option Nat :=
  if l ≠ [] ∧ l.all Char.isDigit then
    some (l.foldl (fun a c => a * 10 + (c.toNat - 48)) 0)
  else none

/-- Python `int(s)`, allowing a leading minus sign. -/
def strToInt? (s : String) : Option Int :=
  match s.data with
  | '-' :: rest => (listToNat? rest).map (fun n => -(n : Int))
  | l => (listToNat? l).map (fun n => (n : Int))

def strToNat? (s : String) : Option Nat := listToNat? s.data

/-- Days from 1970-01-01 of a civil date (proleptic Gregorian),
for years ≥ 1. -/
def daysFromCivil (y m d : Nat) : Int :=
  let y' := if m ≤ 2 then y - 1 else y
  let era := y' / 400
  let yoe := y' % 400
  let mp := (m + 9) % 12
  let doy := (153 * mp + 2) / 5 + d - 1
  let doe := yoe * 365 + yoe / 4 - yoe / 100 + doy
  (era * 146097 + doe : Int) - 719468

/-- Civil date (year, month, day) of a day count from 1970-01-01;
inverse of `daysFromCivil` on the dates the program handles. -/
def civilFromDays (z : Int) : Nat × Nat × Nat :=
  let n := (z + 719468).toNat
  let era := n / 146097
  let doe := n % 146097
  let yoe := (doe - doe / 1460 + doe / 36524 - doe / 146096) / 365
  let y := yoe + era * 400
  let doy := doe - (365 * yoe + yoe / 4 - yoe / 100)
  let mp := (5 * doy + 2) / 153
  let d := doy - (153 * mp + 2) / 5 + 1
  let m := if mp < 10 then mp + 3 else mp - 9
  (if m ≤ 2 then y + 1 else y, m, d)

/-- Zero-padded decimal rendering. -/
def padNum (w n : Nat) : String :=
  let s := toString n
  ⟨List.replicate (w - s.length) '0'⟩ ++ s

/-- `date.isoformat()` of a day count. -/
def isoOfDays (z : Int) : String :=
  let c := civilFromDays z
  padNum 4 c.1 ++ "-" ++ padNum 2 c.2.1 ++ "-" ++ padNum 2 c.2.2

def daysInMonth (y m : Nat) : Nat :=
  if m = 2 then (if y % 4 = 0 ∧ (y % 100 ≠ 0 ∨ y % 400 = 0) then 29 else 28)
  else if m = 4 ∨ m = 6 ∨ m = 9 ∨ m = 11 then 30 else 31

def allDigits (s : String) : Bool := s.data.all (fun c => c.isDigit)

/-- `datetime.fromisoformat` on a `YYYY-MM-DD` date string: the day count,
or `none` when the string is not a valid date. -/
def parseIsoDate (s : String) : Option Int :=
  match pySplit s '-' with
  | [ys, ms, ds] =>
    if ys.length = 4 ∧ ms.length = 2 ∧ ds.length = 2 ∧
        allDigits ys ∧ allDigits ms ∧ allDigits ds then
      match strToNat? ys, strToNat? ms, strToNat? ds with
      | some y, some m, some d =>
        if 1 ≤ m ∧ m ≤ 12 ∧ 1 ≤ d ∧ d ≤ daysInMonth y m then
          some (daysFromCivil y m d)
        else none
      | _, _, _ => none
    else none
  | _ => none

/-- A valid `HH:MM` clock string, as minutes; `none` when malformed. -/
def parseClock (s : String) : Option Nat :=
  match pySplit s ':' with
  | [hs, ms] =>
    if hs.length = 2 ∧ ms.length = 2 ∧ allDigits hs ∧ allDigits ms then
      match strToNat? hs, strToNat? ms with
      | some h, some m => if h ≤ 23 ∧ m ≤ 59 then some (h * 60 + m) else none
      | _, _ => none
    else none
  | _ => none

/-- `datetime.fromisoformat(f"{date}T{time}:00")`: minutes since the epoch,
or `none` when either part is malformed (the `except` branch). -/
def parseIsoDateTime (dateStr timeStr : String) : Option Int :=
  match parseIsoDate dateStr, parseClock timeStr with
  | some z, some mins => some (z * 1440 + mins)
  | _, _ => none

/-- Minutes since the epoch of a civil date-time (helper for statements). -/
def dtMinutes (y mo d h mi : Nat) : Int :=
  daysFromCivil y mo d * 1440 + (h * 60 + mi : Nat)

/-- `strftime("%a")` from a day count (1970-01-01 was a Thursday). -/
def weekdayName (z : Int) : String :=
  ["Thu", "Fri", "Sat", "Sun", "Mon", "Tue", "Wed"].getD (z % 7).toNat ""

/-- Python `round(x)` (half to even) on rationals. -/
def roundHalfEven (x : Rat) : Int :=
  let f := x.floor
  let r := x - f
  if r < 1 / 2 then f
  else if 1 / 2 < r then f + 1
  else if f % 2 = 0 then f else f + 1

/-- Python `round(x, 2)`. -/
def round2 (x : Rat) : Rat := (roundHalfEven (x * 100) : Rat) / 100

-- ---------------------------------------------------------------------------
-- Profiles and the calendar source (`app/tools/calendar.py`)
-- ---------------------------------------------------------------------------

/-- A family or colleague record from profile metadata. -/
structure Person where
  name : String
  relation : Option String := none
  role : Option String := none
  birthday : Option String := none
  email : Option String := none
  likes : List String := []
deriving Repr, DecidableEq

/-- Profile metadata (`profile["meta"]`). -/
structure Meta where
  role : Option String := none
  night_owl : Bool := false
  parties : Bool := false
  stressors : Bool := false
  religious : Bool := false
  prefers_home : Bool := false
  music : Option String := none
  hobby : Option String := none
  city : Option String := none
  family : List Person := []
  colleagues : List Person := []
deriving Repr, DecidableEq

/-- A profile: `days` maps day keys to `{time: title}` blocks, in insertion
order; `none` models an absent `"days"` key. -/
structure Profile where
  days : Option (List (String × List (String × String))) := none
  meta : Meta := {}
deriving Repr, DecidableEq

structure Event where
  time : String
  title : String
deriving Repr, DecidableEq

/-- Stable insertion sort (Python's `sorted` is stable). -/
def insertSorted {α : Type} (le : α → α → Bool) (x : α) : List α → List α
  | [] => [x]
  | y :: ys => if le y x then y :: insertSorted le x ys else x :: y :: ys

def stableSort {α : Type} (le : α → α → Bool) (l : List α) : List α :=
  l.foldl (fun acc x => insertSorted le x acc) []

/-- `sorted(blocks.items())`: pairs ordered lexicographically. -/
def pairLe (a b : String × String) : Bool :=
  strLt a.1 b.1 || (a.1 == b.1 && strLe a.2 b.2)

/-- `calendar_lookup(profile, date)` from `app/tools/calendar.py`.  The
`date` argument is ignored: the first stored day is always used.  `none`
models the `StopIteration` raised when `profile["days"]` is present but
empty (`next(iter({}))`); a missing `"days"` key falls back to the default
`{"Day_1": {}}`, whose lookup yields no events. -/
def calendar_lookup (profile : Profile) (date : String) : Option (List Event) :=
  match profile.days with
  | none => some []
  | some [] => none
  | some ((_, blocks) :: _) =>
    some ((stableSort pairLe blocks).map (fun p => ⟨p.1, p.2⟩))

-- ---------------------------------------------------------------------------
-- Day-Context Engine (`compute_day_context` in `app/graphs/supervisor.py`)
-- ---------------------------------------------------------------------------

/-- `_parse_time` / `_to_minutes`: split on `":"`, integer conversion,
`(0, 0)` on any failure. -/
def parse_time (t : String) : Int × Int :=
  match pySplit t ':' with
  | [hs, ms] =>
    match strToInt? hs, strToInt? ms with
    | some h, some m => (h, m)
    | _, _ => (0, 0)
  | _ => (0, 0)

def to_minutes (t : String) : Int :=
  let p := parse_time t
  p.1 * 60 + p.2

def fmt_range (a b : String) : String := a ++ "-" ++ b

structure FreeBlock where
  start : String
  stop : String
  minutes : Int
deriving Repr, DecidableEq

def mkBlock (a b : String) : FreeBlock :=
  ⟨a, b, max 0 (to_minutes b - to_minutes a)⟩

structure FocusWindow where
  window : String
  minutes : Int
deriving Repr, DecidableEq

structure EventTypes where
  meeting : Nat := 0
  call : Nat := 0
  family : Nat := 0
  party : Nat := 0
  travel : Nat := 0
deriving Repr, DecidableEq

structure DayContext where
  events : List Event
  event_count : Nat
  first_event_time : Option String
  last_event_time : Option String
  first_event_title : Option String
  last_event_title : Option String
  free_blocks : List FreeBlock
  block_count : Nat
  longest_block : Int
  focus_windows : List FocusWindow
  day_load : String
  meeting_density : Rat
  night_owl : Bool
  role : Option String
  prefers_parties : Bool
  religious : Bool
  music : Option String
  hobby : Option String
  weekday : String
  is_weekend : Bool
  event_types : EventTypes
deriving Repr, DecidableEq

/-- The free-block loop of `compute_day_context`: `prev` starts at `None`;
the first event may add a synthetic morning block, every later event adds
the gap from the previous event. -/
def freeBlocksLoop : Option Event → List Event → List FreeBlock
  | _, [] => []
  | none, e :: rest =>
    (if strLt "08:00" e.time then [mkBlock "06:00" e.time] else []) ++
      freeBlocksLoop (some e) rest
  | some p, e :: rest => mkBlock p.time e.time :: freeBlocksLoop (some e) rest

/-- Gap + synthetic-evening part of `compute_day_context`:
`if last_time and last_time < "20:30"` appends a block to `"22:30"`. -/
def computeFreeBlocks (events : List Event) : List FreeBlock :=
  let last_time : Option String := (events.getLast?).map (·.time)
  freeBlocksLoop none events ++
    (match last_time with
     | some lt => if lt ≠ "" ∧ strLt lt "20:30" then [mkBlock lt "22:30"] else []
     | none => [])

/-- The event-type counting loop of `compute_day_context`. -/
def bumpTypes (tc : EventTypes) (e : Event) : EventTypes :=
  let title := pyLower e.title
  let tc := if strContains title "meeting" || strContains title "review" then
    { tc with meeting := tc.meeting + 1 } else tc
  let tc := if strContains title "call" || strContains title "sync" then
    { tc with call := tc.call + 1 } else tc
  let tc := if strContains title "family" || strContains title "kids" then
    { tc with family := tc.family + 1 } else tc
  let tc := if strContains title "party" || strContains title "drink" then
    { tc with party := tc.party + 1 } else tc
  let tc := if strContains title "flight" || strContains title "commute" ||
      strContains title "drive" then
    { tc with travel := tc.travel + 1 } else tc
  tc

/-- `compute_day_context(profile, date)`; `none` propagates the calendar
lookup failure. -/
def compute_day_context (profile : Profile) (date : String) : Option DayContext :=
  (calendar_lookup profile date).map (fun rawEvents =>
    let events := stableSort (fun a b => strLe a.time b.time) rawEvents
    let count := events.length
    let first_time := (events.head?).map (·.time)
    let last_time := (events.getLast?).map (·.time)
    let free_blocks := computeFreeBlocks events
    let load := if count ≤ 2 then "light" else if count ≤ 4 then "medium" else "heavy"
    let type_counts := events.foldl bumpTypes {}
    let long_blocks := free_blocks.filter (fun b => 45 ≤ b.minutes)
    let morning := long_blocks.filter (fun b => strLe b.start "12:00")
    let afternoon := long_blocks.filter
      (fun b => strLt "12:00" b.start && strLe b.start "18:30")
    let morning := stableSort (fun a b => b.minutes ≤ a.minutes) morning
    let afternoon := stableSort (fun a b => b.minutes ≤ a.minutes) afternoon
    let focus_windows :=
      (match morning.head? with
       | some b => [FocusWindow.mk (fmt_range b.start b.stop) b.minutes]
       | none => []) ++
      (match afternoon.head? with
       | some b => [FocusWindow.mk (fmt_range b.start b.stop) b.minutes]
       | none => [])
    let span_min : Int :=
      match first_time, last_time with
      | some ft, some lt =>
        if ft ≠ "" ∧ lt ≠ "" then max 1 (to_minutes lt - to_minutes ft) else 480
      | _, _ => 480
    let density : Rat :=
      if span_min ≠ 0 then round2 ((count : Rat) / ((span_min : Rat) / 60)) else 0
    let wd : Option Int := parseIsoDate date
    let weekday := match wd with | some z => weekdayName z | none => ""
    let is_weekend := weekday = "Sat" ∨ weekday = "Sun"
    { events := events
      event_count := count
      first_event_time := first_time
      last_event_time := last_time
      first_event_title := (events.head?).map (·.title)
      last_event_title := (events.getLast?).map (·.title)
      free_blocks := free_blocks
      block_count := free_blocks.length
      longest_block := (free_blocks.map (·.minutes)).foldl max 0
      focus_windows := focus_windows
      day_load := load
      meeting_density := density
      night_owl := profile.meta.night_owl
      role := profile.meta.role
      prefers_parties := profile.meta.parties
      religious := profile.meta.religious
      music := profile.meta.music
      hobby := profile.meta.hobby
      weekday := weekday
      is_weekend := is_weekend
      event_types := type_counts })

-- ---------------------------------------------------------------------------
-- Agent Router (`router_order` in `app/graphs/supervisor.py`)
-- ---------------------------------------------------------------------------

/-- The keys of `NODE_FUN`: the known-agent set. -/
def NODE_FUN_keys : List String :=
  ["getting_started", "traffic", "work_life", "fitness", "hobby",
   "life_after_work", "relaxation", "nutrition", "finance_errands",
   "learning", "celebrations"]

/-- Steps 1–5 of `router_order`, once the profile/context features are
extracted: `isExec`/`isGenz` are the role substring tests (the `elif`
gives `isExec` priority), `isLight`/`isHeavy` the `load ==` tests,
`evening` the evening-engagement flag, `densHigh` the `density >= 1.0`
test. -/
def routerSteps (isExec isGenz night weekend isLight isHeavy evening densHigh :
    Bool) : List String :=
  let base := ["getting_started", "celebrations"]
  -- Step 1: role-specific tail (night-owl swap in the default branch).
  let seq :=
    if isExec then
      base ++ ["work_life", "traffic", "nutrition", "learning", "fitness",
               "finance_errands", "hobby", "life_after_work", "relaxation"]
    else if isGenz then
      base ++ (if night then ["hobby"] else []) ++
        ["traffic", "work_life", "nutrition", "learning", "fitness",
         "finance_errands", "life_after_work", "relaxation"]
    else
      base ++ (if !night then ["traffic", "work_life"] else ["work_life", "traffic"]) ++
        ["nutrition", "learning", "hobby", "life_after_work", "fitness",
         "finance_errands", "relaxation"]
  -- Step 2: weekend moves.
  let seq :=
    if weekend then
      let seq := ["hobby", "learning", "finance_errands", "life_after_work"].foldl
        (fun s name => if s.contains name then pyInsert 2 name (pyRemove name s) else s)
        seq
      let seq := if seq.contains "work_life" then
        let s := pyRemove "work_life" seq
        pyInsert (s.length - 1) "work_life" s else seq
      let seq := if seq.contains "traffic" then
        let s := pyRemove "traffic" seq
        pyInsert (s.length - 2) "traffic" s else seq
      seq
    else seq
  -- Step 3: load-based moves.
  let seq :=
    if isLight ∧ seq.contains "fitness" then
      pyInsert (if !night then 2 else 3) "fitness" (pyRemove "fitness" seq)
    else seq
  let seq :=
    if isHeavy ∧ seq.contains "hobby" then
      let s := pyRemove "hobby" seq
      pyInsert (s.length - 1) "hobby" s
    else seq
  -- Step 4: relocate life_after_work.
  let seq :=
    if seq.contains "life_after_work" then
      let s := pyRemove "life_after_work" seq
      if evening then
        let idx := match s.findIdx? (· = "learning") with
          | some i => i + 1
          | none => 3
        pyInsert (min idx (s.length - 1)) "life_after_work" s
      else if densHigh ∨ isHeavy then
        pyInsert (s.length - 1) "life_after_work" s
      else
        pyInsert (s.length - 1) "life_after_work" s
    else seq
  -- Step 5: uniqueness and known names, first-seen order.
  (seq.foldl (fun out s =>
    if out.contains s ∨ ¬ NODE_FUN_keys.contains s then out else out ++ [s]) [])

/-- `router_order(profile, ctx)` from `app/graphs/supervisor.py`. -/
def router_order (profile : Profile) (ctx : DayContext) : List String :=
  let role := pyLower (pyOrStr ctx.role (profile.meta.role.getD ""))
  let night := ctx.night_owl
  let load := ctx.day_load
  let is_weekend := ctx.is_weekend
  let density := ctx.meeting_density
  let last_time := pyOrStr ctx.last_event_time ""
  let evening_engagement :=
    strLe "19:00" last_time ||
      decide (0 < ctx.event_types.party + ctx.event_types.family)
  routerSteps
    (strContains role "exec" || strContains role "c-level" ||
      strContains role "c level")
    (strContains role "genz" || strContains role "gen z")
    night is_weekend (load = "light") (load = "heavy")
    evening_engagement (decide ((1 : Rat) ≤ density))

/-- `router_order` as the spec describes it, with the density/load
sub-condition of step 4 removed: when evening engagement is false,
`life_after_work` is always inserted at the second-to-last position.
This is the refinement target of the step-4-collapse claim. -/
def routerStepsSpec (isExec isGenz night weekend isLight isHeavy evening densHigh :
    Bool) : List String :=
  let base := ["getting_started", "celebrations"]
  let seq :=
    if isExec then
      base ++ ["work_life", "traffic", "nutrition", "learning", "fitness",
               "finance_errands", "hobby", "life_after_work", "relaxation"]
    else if isGenz then
      base ++ (if night then ["hobby"] else []) ++
        ["traffic", "work_life", "nutrition", "learning", "fitness",
         "finance_errands", "life_after_work", "relaxation"]
    else
      base ++ (if !night then ["traffic", "work_life"] else ["work_life", "traffic"]) ++
        ["nutrition", "learning", "hobby", "life_after_work", "fitness",
         "finance_errands", "relaxation"]
  let seq :=
    if weekend then
      let seq := ["hobby", "learning", "finance_errands", "life_after_work"].foldl
        (fun s name => if s.contains name then pyInsert 2 name (pyRemove name s) else s)
        seq
      let seq := if seq.contains "work_life" then
        let s := pyRemove "work_life" seq
        pyInsert (s.length - 1) "work_life" s else seq
      let seq := if seq.contains "traffic" then
        let s := pyRemove "traffic" seq
        pyInsert (s.length - 2) "traffic" s else seq
      seq
    else seq
  let seq :=
    if isLight ∧ seq.contains "fitness" then
      pyInsert (if !night then 2 else 3) "fitness" (pyRemove "fitness" seq)
    else seq
  let seq :=
    if isHeavy ∧ seq.contains "hobby" then
      let s := pyRemove "hobby" seq
      pyInsert (s.length - 1) "hobby" s
    else seq
  let seq :=
    if seq.contains "life_after_work" then
      let s := pyRemove "life_after_work" seq
      if evening then
        let idx := match s.findIdx? (· = "learning") with
          | some i => i + 1
          | none => 3
        pyInsert (min idx (s.length - 1)) "life_after_work" s
      else
        pyInsert (s.length - 1) "life_after_work" s
    else seq
  (seq.foldl (fun out s =>
    if out.contains s ∨ ¬ NODE_FUN_keys.contains s then out else out ++ [s]) [])

def router_order_spec (profile : Profile) (ctx : DayContext) : List String :=
  let role := pyLower (pyOrStr ctx.role (profile.meta.role.getD ""))
  let night := ctx.night_owl
  let load := ctx.day_load
  let is_weekend := ctx.is_weekend
  let density := ctx.meeting_density
  let last_time := pyOrStr ctx.last_event_time ""
  let evening_engagement :=
    strLe "19:00" last_time ||
      decide (0 < ctx.event_types.party + ctx.event_types.family)
  routerStepsSpec
    (strContains role "exec" || strContains role "c-level" ||
      strContains role "c level")
    (strContains role "genz" || strContains role "gen z")
    night is_weekend (load = "light") (load = "heavy")
    evening_engagement (decide ((1 : Rat) ≤ density))

-- ---------------------------------------------------------------------------
-- Event Planning Workflow (`app/graphs/birthday.py`) and Plan aggregate
-- ---------------------------------------------------------------------------

structure Venues where
  restaurants : List String
  home : List String
deriving Repr, DecidableEq

/-- The result dict of `send_invites` in `app/tools/comms.py`. -/
structure SendResult where
  sent : Nat
  failed : List String
  preview : String
deriving Repr, DecidableEq

/-- A `_run_task` result (`app/main.py`), one constructor per task kind. -/
inductive OpsResult where
  | menu (guests veg : Nat) (dishes : List String)
  | grocery (items : List String) (ordered : Bool) (eta : String)
  | wifi (ssid password qr : String)
  | locks (engaged : Bool) (time : Int)
  | cleanup (robot : Bool) (rooms : List String) (durationMin : Nat)
  | okDefault
deriving Repr, DecidableEq

/-- A TimelineTask.  `scheduledAt`/`dueAt` are parsed ISO timestamps in
minutes; `none` stands for a payload `tick_timeline` cannot parse (its
`except` branch). -/
structure TimelineTask where
  id : String
  kind : String
  title : String
  scheduledAt : Option Int
  dueAt : Option Int
  status : String
  notes : String
  result : Option OpsResult := none
deriving Repr, DecidableEq

/-- The Plan aggregate (thread-keyed dict in `PLAN_STORE`); `none` models
an absent key. -/
structure Plan where
  date : Option String := none
  availability : Option (List Event) := none
  time : Option String := none
  time_options : Option (List String) := none
  relation : Option String := none
  event_type : Option String := none
  spouse_name : Option String := none
  honoree_name : Option String := none
  venue : Option String := none
  theme : Option String := none
  theme_options : List String := []
  venue_options : Option Venues := none
  budget : Option Int := none
  timeline : List String := []
  stage : Option String := none
  next_actions : List String := []
  invitees : Option (List String) := none
  invitee_suggestions : Option (List String) := none
  invite_message_template : Option String := none
  invite_preview : Option String := none
  invite_result : Option SendResult := none
  ops_timeline : Option (List TimelineTask) := none
  ops : List (String × OpsResult) := []
deriving Repr, DecidableEq

/-- The `params` dict handed to the birthday graph. -/
structure Params where
  spouse_name : Option String := none
  event_date : Option String := none
  budget : Option Int := none
  invitees : List String := []
  relation : Option String := none
  event_type : Option String := none
deriving Repr, DecidableEq

/-- First-seen-order deduplication (`dict.fromkeys` / seen-set loops). -/
def dedupFirst (l : List String) : List String :=
  l.foldl (fun out s => if out.contains s then out else out ++ [s]) []

/-- `_suggest_themes(profile, honoree_likes)`. -/
def suggest_themes (profile : Profile) (honoree_likes : List String) : List String :=
  let likes := honoree_likes.map pyLower
  let out :=
    (if ["classical", "indian art", "ballet"].any (likes.contains ·) then
      ["Elegant Minimal"] else []) ++
    (if ["football", "f1", "ps5"].any (likes.contains ·) then
      ["Sporty Fun"] else []) ++
    (if profile.meta.parties then ["Lively Social"] else []) ++
    (if profile.meta.stressors then ["Calm & Cozy"] else [])
  let out := if out.isEmpty then ["Warm & Minimal", "Modern Chic", "Cozy Home"] else out
  (dedupFirst out).take 3

/-- `_suggest_venues(profile)`. -/
def suggest_venues (profile : Profile) : Venues :=
  let city := profile.meta.city.getD "your area"
  { restaurants := [city ++ " Bistro", "The Blue Door (" ++ city ++ ")",
      "Rooftop Garden (" ++ city ++ ")"]
    home := ["Home - Backyard dinner", "Home - Living room tapas",
      "Home - Terrace soiree"] }

/-- `_suggest_times(availability)`: prefer the 18:00–21:00 window, fall back
to the first three availability times, deduplicate, cap at 3. -/
def suggest_times (availability : List Event) : List String :=
  let opts := ((availability.filter
    (fun e => e.time ≠ "" ∧ strLe "18:00" e.time ∧ strLe e.time "21:00")).map (·.time))
  let opts := if opts.isEmpty then
    ((availability.take 3).filter (fun e => e.time ≠ "")).map (·.time)
  else opts
  (dedupFirst opts).take 3

/-- `_invitee_suggestions(profile)`: family then colleague emails, unique,
capped at 10. -/
def invitee_suggestions_of (profile : Profile) : List String :=
  let emails :=
    (profile.meta.family.filterMap
      (fun f => match f.email with
        | some e => if e ≠ "" then some e else none
        | none => none)) ++
    (profile.meta.colleagues.filterMap
      (fun c => match c.email with
        | some e => if e ≠ "" then some e else none
        | none => none))
  (dedupFirst emails).take 10

/-- One entry of the `_schedule_home_ops` batch: offsets are minutes
relative to the event; the id embeds the epoch-second timestamp. -/
def mkOpsTask (kind title : String) (event_dt offset : Int) (dur : Nat)
    (notes : String) : TimelineTask :=
  let scheduled := event_dt + offset
  { id := kind ++ "-" ++ toString (scheduled * 60)
    kind := kind
    title := title
    scheduledAt := some scheduled
    dueAt := some (scheduled + dur)
    status := "scheduled"
    notes := notes }

/-- `_schedule_home_ops(plan)` from `app/graphs/birthday.py`; `now` stands
for `datetime.now()` in the fallback branch (unparseable or missing date:
7 days from now at 19:00). -/
def schedule_home_ops (now : Int) (plan : Plan) : List TimelineTask :=
  let event_dt : Int :=
    match plan.date with
    | some ds =>
      match parseIsoDateTime ds (pyOrStr plan.time "19:00") with
      | some dt => dt
      | none => (now / 1440 + 7) * 1440 + 19 * 60
    | none => (now / 1440 + 7) * 1440 + 19 * 60
  [mkOpsTask "decide_menu" "Decide on menu and portions" event_dt (-3 * 1440) 120
    "Pick dishes, count vegetarians, finalize portions",
   mkOpsTask "grocery_shopping" "Grocery shopping list and order" event_dt
    (-(1440 + 120)) 90 "Create list by menu; schedule delivery or pickup",
   mkOpsTask "wifi_access" "Set up guest Wi\u2011Fi and QR code" event_dt (-120) 30
    "Generate guest SSID and print QR",
   mkOpsTask "secure_locks" "Secure door locks after guests leave" event_dt 180 10
    "Ensure all smart locks are engaged",
   mkOpsTask "post_cleanup" "Post-party cleanup and robot vacuum run" event_dt 240 60
    "Run robot vacuum; tidy kitchen and living room"]

/-- `node_calendar`: resolves the date (default: 14 days from now), loads
availability from the calendar, propagates honoree params, seeds time
options.  `none` propagates a calendar failure. -/
def node_calendar (now : Int) (profile : Profile) (params : Params)
    (plan : Plan) : Option Plan :=
  let date := pyOrStr params.event_date (isoOfDays (now / 1440 + 14))
  (calendar_lookup profile date).map (fun events =>
    let plan := { plan with date := some date, availability := some (events.take 5) }
    let plan := match params.relation with
      | some r => if r ≠ "" then { plan with relation := some r } else plan
      | none => plan
    let plan := match params.event_type with
      | some t => if t ≠ "" then { plan with event_type := some t } else plan
      | none => plan
    let plan := match params.spouse_name with
      | some s => if s ≠ "" then { plan with honoree_name := some s } else plan
      | none => plan
    if plan.time_options.isNone then
      { plan with time_options := some (suggest_times (plan.availability.getD [])) }
    else plan)

/-- `node_plan_event`: theme/venue defaults and options, budget, fixed
timeline, initial stage. -/
def node_plan_event (profile : Profile) (params : Params) (plan : Plan) : Plan :=
  let spouse := match params.spouse_name with
    | some s => s
    | none => pyOrStr plan.honoree_name "Spouse"
  let budget := params.budget.getD 10000
  let relation := pyOrStr plan.relation (pyOrStr params.relation "family")
  let event_type := pyOrStr plan.event_type (pyOrStr params.event_type "birthday")
  let venue_default := if profile.meta.prefers_home then "Home" else "Trendy lounge"
  let honoree_likes := match profile.meta.family.find? (fun m => m.name = spouse) with
    | some m => m.likes
    | none => []
  let theme_options := suggest_themes profile honoree_likes
  let venue_options := suggest_venues profile
  { plan with
    spouse_name := some spouse
    honoree_name := some (pyOrStr plan.honoree_name spouse)
    relation := some relation
    event_type := some event_type
    venue := some (pyOrStr plan.venue venue_default)
    theme := some (pyOrStr plan.theme (theme_options.headD "Warm & Minimal"))
    theme_options := theme_options
    venue_options := some venue_options
    budget := some budget
    timeline := ["18:30 arrivals", "19:15 toast", "20:00 dinner", "21:00 cake"]
    stage := some (pyOrStr plan.stage "review_theme_venue")
    next_actions := ["change_theme", "change_venue", "confirm_theme_venue"] }

/-- The default invite template composed by `node_compose_invites`. -/
def defaultInviteTemplate : String :=
  "Hi {name},\nYou\x27re invited to {spouse}\x27s surprise on {date} at {venue} {time}. RSVP: {rsvp}"

/-- `node_compose_invites`: the three gates (theme/venue review, time
selection, invitee selection) and the invite composition step. -/
def node_compose_invites (profile : Profile) (plan : Plan) : Plan :=
  if plan.stage = some "review_theme_venue" then
    if plan.time_options.isNone then
      { plan with time_options := some (suggest_times (plan.availability.getD [])) }
    else plan
  else if pyOrStr plan.time "" = "" then
    let plan := { plan with
      stage := some "pick_time"
      next_actions := ["choose_time", "propose_more_times", "change_date"] }
    if plan.time_options.isNone then
      { plan with time_options := some (suggest_times (plan.availability.getD [])) }
    else plan
  else if (pyOrList plan.invitees []).isEmpty then
    { plan with
      stage := some "select_invitees"
      invitee_suggestions :=
        some (pyOrList plan.invitee_suggestions (invitee_suggestions_of profile))
      next_actions := ["add_invitees", "remove_invitees", "confirm_invitees"] }
  else
    let tmpl := pyOrStr plan.invite_message_template defaultInviteTemplate
    let sample := (pyOrList plan.invitees ["Guest"]).headD "Guest"
    let preview := pyReplace tmpl "{name}" sample
    { plan with
      invite_message_template := some tmpl
      invite_preview := some preview
      next_actions := ["edit_invite_tone", "edit_invite_text", "confirm_send"]
      stage := some "review_invite" }

/-- `send_invites(invitees, message)` from `app/tools/comms.py`. -/
def send_invites (invitees : List String) (message : String) : SendResult :=
  { sent := invitees.length, failed := [], preview := pyTake message 180 }

/-- `node_send_invites`: only fires on stage `ready_to_send`; renders the
message, dispatches, marks the plan `sent`, and schedules the home-ops
timeline when the venue contains "home" (case-insensitive).  The `.format`
call is modelled as placeholder replacement (the substituted values
contain no braces). -/
def node_send_invites (now : Int) (plan : Plan) : Plan :=
  if plan.stage ≠ some "ready_to_send" then plan
  else
    let invitees := plan.invitees.getD []
    let msg := pyReplace (plan.invite_message_template.getD "") "{name}" "Friend"
    let msg := pyReplace msg "{spouse}" (plan.spouse_name.getD "Spouse")
    let msg := pyReplace msg "{date}" (plan.date.getD "")
    let msg := pyReplace msg "{venue}" (plan.venue.getD "")
    let msg := pyReplace msg "{time}" (plan.time.getD "")
    let msg := pyReplace msg "{rsvp}" "https://example.com/rsvp"
    let plan := { plan with
      invite_result := some (send_invites invitees msg)
      stage := some "sent" }
    let venue := pyLower (pyOrStr plan.venue "")
    if strContains venue "home" then
      { plan with ops_timeline := some (schedule_home_ops now plan) }
    else plan

/-- One full run of the birthday graph
(calendar → planner → compose → send). -/
def run_pipeline (now : Int) (profile : Profile) (params : Params)
    (plan : Plan) : Option Plan :=
  (node_calendar now profile params plan).map (fun p1 =>
    node_send_invites now (node_compose_invites profile (node_plan_event profile params p1)))

-- ---------------------------------------------------------------------------
-- `/api/nl` actions (`nl_command` in `app/main.py`)
-- ---------------------------------------------------------------------------

/-- A budget value as received by `_normalize_budget` (int or string). -/
inductive BudgetIn where
  | int (n : Int)
  | str (s : String)
deriving Repr, DecidableEq

def pyStrip (s : String) : String :=
  ⟨(s.data.dropWhile Char.isWhitespace).reverse.dropWhile Char.isWhitespace |>.reverse⟩

/-- `_normalize_budget`: tier keywords, else integer parse, else 10000. -/
def normalize_budget : BudgetIn → Int
  | .int n => n
  | .str v =>
    let s := pyLower (pyStrip v)
    if s = "low" ∨ s = "small" ∨ s = "budget" then 3000
    else if s = "medium" ∨ s = "med" ∨ s = "mid" then 10000
    else if s = "high" ∨ s = "large" ∨ s = "premium" then 25000
    else match strToInt? s with
      | some n => n
      | none => 10000

/-- Python truthiness of an action's budget payload. -/
def budgetTruthy : BudgetIn → Bool
  | .int n => n ≠ 0
  | .str s => s ≠ ""

/-- The `/api/nl` action dictionary, by `type`; payload fields mirror the
keys each branch reads. -/
inductive NLAction where
  | change_theme (theme : String)
  | change_venue (venue : String)
  | confirm_theme_venue
  | choose_time (time : String)
  | change_date (event_date : String)
  | adjust_budget (budget : BudgetIn)
  | add_invitees (emails : List String)
  | remove_invitees (emails : List String)
  | confirm_invitees
  | edit_invite_tone (style brevity : String)
  | edit_invite_text (template : Option String)
  | confirm_send
deriving Repr, DecidableEq

/-- `render_invite_preview` from `app/tools/comms.py` (the `compose_message`
`format_map` is placeholder replacement; unknown placeholders survive). -/
def render_invite_preview (tmpl : String) (invitees : List String)
    (spouse date venue rsvp : String) : String :=
  let sample := invitees.headD "Guest"
  let t := if strContains tmpl "{guest}" then pyReplace tmpl "{guest}" sample
    else pyReplace tmpl "{name}" sample
  let t := pyReplace t "{spouse}" spouse
  let t := pyReplace t "{date}" date
  let t := pyReplace t "{venue}" venue
  let t := pyReplace t "{rsvp}" rsvp
  pyTake t 180

/-- `rewrite_invite_template` calls the LLM collaborator (its offline
fallback applies regex-based tone tweaks); it is passed in as an opaque
function argument `(style, brevity, current, (spouse, date, venue)) ↦
revised`, matching the collaborator contract of the spec. -/
def Rewriter : Type := String → String → String → String × String × String → String

/-- The default template used by the `edit_invite_tone` branch (it has no
`{time}` placeholder, unlike the composed one). -/
def toneDefaultTemplate : String :=
  "Hi {name},\nYou\x27re invited to {spouse}\x27s surprise on {date} at {venue}. RSVP: {rsvp}"

/-- The Python loop appending emails not already present
(`add_invitees`). -/
def addEmails (invitees emails : List String) : List String :=
  emails.foldl (fun inv e => if inv.contains e then inv else inv ++ [e]) invitees

/-- The edit/confirmation `elif` chain of `nl_command` (`app/main.py`,
birthday branch), applied to a loaded plan before the pipeline re-run. -/
def apply_edit (rewriter : Rewriter) (plan : Plan) : NLAction → Plan
  | .change_theme theme =>
    if theme ≠ "" then
      { plan with theme := some theme, stage := some "review_theme_venue" }
    else plan
  | .change_venue venue =>
    if venue ≠ "" then
      { plan with venue := some venue, stage := some "review_theme_venue" }
    else plan
  | .confirm_theme_venue => { plan with stage := some "theme_venue_confirmed" }
  | .choose_time time =>
    if time ≠ "" then { plan with time := some time } else plan
  | .change_date event_date =>
    if event_date ≠ "" then
      { plan with
        date := some event_date
        availability := none
        time_options := none
        time := none }
    else plan
  | .adjust_budget budget =>
    if budgetTruthy budget then
      { plan with budget := some (normalize_budget budget) }
    else plan
  | .add_invitees emails =>
    if ¬ emails.isEmpty then
      let inv := plan.invitees.getD []
      { plan with invitees := some (addEmails inv emails) }
    else plan
  | .remove_invitees emails =>
    if ¬ emails.isEmpty ∧ ¬ (pyOrList plan.invitees []).isEmpty then
      let kept := (plan.invitees.getD []).filter (fun e => ¬ emails.contains e)
      { plan with invitees := some kept }
    else plan
  | .confirm_invitees => { plan with stage := some "invitees_confirmed" }
  | .edit_invite_tone style brevity =>
    let current := pyOrStr plan.invite_message_template toneDefaultTemplate
    let cSpouse := pyOrStr plan.spouse_name "{spouse}"
    let cDate := pyOrStr plan.date "{date}"
    let cVenue := pyOrStr plan.venue "{venue}"
    let revised := rewriter style brevity current (cSpouse, cDate, cVenue)
    let invitees := plan.invitees.getD []
    { plan with
      invite_message_template := some revised
      invite_preview := some (render_invite_preview revised invitees cSpouse cDate
        cVenue "https://example.com/rsvp") }
  | .edit_invite_text template =>
    match template with
    | some tmpl =>
      if tmpl ≠ "" then
        { plan with
          invite_message_template := some tmpl
          invite_preview := some (render_invite_preview tmpl (plan.invitees.getD [])
            (plan.spouse_name.getD "Spouse") (plan.date.getD "{date}")
            (plan.venue.getD "{venue}") "https://example.com/rsvp") }
      else plan
    | none => plan
  | .confirm_send => { plan with stage := some "ready_to_send" }

/-- `ApplyAction` for an existing plan: the `nl_command` birthday branch —
apply the edit, then re-invoke the whole graph with
`params = {"invitees": plan.get("invitees", [])}`.  `none` models a
calendar failure aborting the request. -/
def nl_apply (now : Int) (rewriter : Rewriter) (profile : Profile)
    (plan : Plan) (action : NLAction) : Option Plan :=
  let plan := apply_edit rewriter plan action
  run_pipeline now profile { invitees := plan.invitees.getD [] } plan

-- ---------------------------------------------------------------------------
-- Task Scheduler (`_run_task` / `tick_timeline` in `app/main.py`)
-- ---------------------------------------------------------------------------

def opsGet (ops : List (String × OpsResult)) (k : String) : Option OpsResult :=
  (ops.find? (fun p => p.1 = k)).map (·.2)

/-- Python `plan["ops"][kind] = result`: replace in place or append. -/
def opsSet (ops : List (String × OpsResult)) (k : String) (v : OpsResult) :
    List (String × OpsResult) :=
  if (ops.find? (fun p => p.1 = k)).isSome then
    ops.map (fun p => if p.1 = k then (k, v) else p)
  else ops ++ [(k, v)]

/-- `_run_task(kind, plan)`: deterministic stub results; reads the plan's
invitees, spouse name and accumulated ops. -/
def run_task (now : Int) (invitees : List String) (spouse : Option String)
    (ops : List (String × OpsResult)) (kind : String) : OpsResult :=
  if kind = "decide_menu" then
    let guests := if invitees.length = 0 then 8 else invitees.length
    let veg := max 2 (guests / 3)
    .menu guests veg ["Paneer Tikka", "Hakka Noodles", "Veg Biryani",
      "Chicken Kebab", "Gulab Jamun"]
  else if kind = "grocery_shopping" then
    let dishes := match opsGet ops "decide_menu" with
      | some (.menu _ _ ds) => ds
      | _ => ["Snacks", "Drinks"]
    .grocery (dishes.map (fun d => "Ingredients for " ++ d) ++
      ["Paper plates", "Napkins", "Soda", "Ice"]) true "T-12h"
  else if kind = "wifi_access" then
    .wifi ("Guest-" ++ spouse.getD "Party") "party@123" "data:image/png;base64,...."
  else if kind = "secure_locks" then .locks true now
  else if kind = "post_cleanup" then
    .cleanup true ["Living Room", "Dining", "Kitchen"] 60
  else .okDefault

/-- The task loop of `tick_timeline`: returns the updated task list, the
processed copies, and the accumulated ops map.  A task that is not
`scheduled` is skipped; an unparseable `scheduledAt` counts as due now. -/
def tick_go (now : Int) (maxSteps : Nat) (invitees : List String)
    (spouse : Option String) :
    List TimelineTask → Nat → List (String × OpsResult) →
      List TimelineTask × List TimelineTask × List (String × OpsResult)
  | [], _, ops => ([], [], ops)
  | t :: rest, steps, ops =>
    if maxSteps ≤ steps then (t :: rest, [], ops)
    else if t.status ≠ "scheduled" then
      let r := tick_go now maxSteps invitees spouse rest steps ops
      (t :: r.1, r.2.1, r.2.2)
    else
      let sched := t.scheduledAt.getD now
      if sched ≤ now then
        let result := run_task now invitees spouse ops t.kind
        let ops := opsSet ops t.kind result
        let t := { t with status := "done", result := some result }
        let r := tick_go now maxSteps invitees spouse rest (steps + 1) ops
        (t :: r.1, t :: r.2.1, r.2.2)
      else
        let r := tick_go now maxSteps invitees spouse rest steps ops
        (t :: r.1, r.2.1, r.2.2)

/-- `tick_timeline(req)` on a loaded plan: `(plan', processed, remaining)`. -/
def tick_timeline (now : Int) (maxSteps : Nat) (plan : Plan) :
    Plan × List TimelineTask × Nat :=
  let tasks := pyOrList plan.ops_timeline []
  let r := tick_go now maxSteps (plan.invitees.getD []) plan.spouse_name tasks 0 plan.ops
  let plan := { plan with ops_timeline := some r.1, ops := r.2.2 }
  (plan, r.2.1, (r.1.filter (fun t => t.status = "scheduled")).length)

/-- A sequence of Tick calls `(now, maxSteps)` applied in order. -/
def tick_seq (plan : Plan) (calls : List (Int × Nat)) : Plan :=
  calls.foldl (fun p c => (tick_timeline c.1 c.2 p).1) plan

-- ---------------------------------------------------------------------------
-- Concrete data for scenarios and witnesses
-- ---------------------------------------------------------------------------

/-- A demo-style profile: one stored day, one spouse with an email. -/
def demoProfile : Profile :=
  { days := some [("Day_1", [("09:00", "Standup meeting"), ("19:00", "Family dinner")])]
    meta := { family := [{ name := "Mia"
                           relation := some "spouse"
                           email := some "mia@x.com" }] } }

/-- The profile of Scenario D: events at 09:00 and 11:30 only. -/
def scenarioDProfile : Profile :=
  { days := some [("Day_1", [("09:00", "Standup meeting"), ("11:30", "Client call")])] }

/-- A fixed `datetime.now()`: 2025-06-01T12:00. -/
def nlNow : Int := dtMinutes 2025 6 1 12 0

/-- A rewriter collaborator that returns the template unchanged. -/
def idRewriter : Rewriter := fun _ _ current _ => current

/-- The Scenario B plan, ready to send from a home venue. -/
def scenarioBPlan : Plan :=
  { venue := some "Home - Backyard dinner"
    date := some "2025-06-01"
    time := some "19:00"
    stage := some "ready_to_send" }

/-- The Scenario A plan: same, but a lounge venue. -/
def loungePlan : Plan := { scenarioBPlan with venue := some "Trendy lounge" }

/-- A plan that is a fixed point of the pipeline re-run under `nlNow`
(obtained by running start/confirm/choose-time/add-invitees through
`nl_apply` on `demoProfile`; its date and budget hold the re-run
defaults). -/
def steadyPlan : Plan :=
  { date := some "2025-06-15"
    availability := some [{ time := "09:00", title := "Standup meeting" },
                          { time := "19:00", title := "Family dinner" }]
    time := some "19:00"
    time_options := some ["19:00"]
    relation := some "family"
    event_type := some "birthday"
    spouse_name := some "Mia"
    honoree_name := some "Mia"
    venue := some "Trendy lounge"
    theme := some "Warm & Minimal"
    theme_options := ["Warm & Minimal", "Modern Chic", "Cozy Home"]
    venue_options := some
      { restaurants := ["your area Bistro", "The Blue Door (your area)", "Rooftop Garden (your area)"]
        home := ["Home - Backyard dinner", "Home - Living room tapas", "Home - Terrace soiree"] }
    budget := some 10000
    timeline := ["18:30 arrivals", "19:15 toast", "20:00 dinner", "21:00 cake"]
    stage := some "review_invite"
    next_actions := ["edit_invite_tone", "edit_invite_text", "confirm_send"]
    invitees := some ["mia@x.com"]
    invitee_suggestions := some ["mia@x.com"]
    invite_message_template := some defaultInviteTemplate
    invite_preview := some (pyReplace defaultInviteTemplate "{name}" "mia@x.com") }

/-- `steadyPlan` with a user-set date that differs from the re-run
default (reachable via `/api/birthdays` start with an explicit
`event_date`). -/
def divergedPlan : Plan := { steadyPlan with date := some "2025-06-20" }

/-- A sent plan holding an already-executed ops task. -/
def sentOpsPlan : Plan :=
  { steadyPlan with
    stage := some "sent"
    ops_timeline := some [{ id := "decide_menu-0"
                            kind := "decide_menu"
                            title := "Decide on menu and portions"
                            scheduledAt := some 0
                            dueAt := some 120
                            status := "done"
                            notes := "" }] }

-- ---------------------------------------------------------------------------
-- Statement-side decompositions (from the spec's wording, for comparison)
-- ---------------------------------------------------------------------------

/-- The gaps between consecutive time-sorted events (spec wording). -/
def gapBlocks (es : List Event) : List FreeBlock :=
  (es.zip es.tail).map (fun q => mkBlock q.1.time q.2.time)

/-- The synthetic morning block: 06:00 up to the first event when that
event starts after 08:00 (spec wording). -/
def morningBlock : List Event → List FreeBlock
  | [] => []
  | e :: _ => if strLt "08:00" e.time then [mkBlock "06:00" e.time] else []

/-- The synthetic evening block: last event to 22:30 when the last event
is before 20:30 (spec wording). -/
def eveningBlock (es : List Event) : List FreeBlock :=
  match (es.getLast?).map (·.time) with
  | some lt => if lt ≠ "" ∧ strLt lt "20:30" then [mkBlock lt "22:30"] else []
  | none => []

-- ---------------------------------------------------------------------------
-- Helper lemmas
-- ---------------------------------------------------------------------------

/-- Finite check behind the router-totality claim. -/
theorem routerSteps_total (a b c d e f g h : Bool) :
    (routerSteps a b c d e f g h).Nodup ∧
    (∀ x ∈ routerSteps a b c d e f g h, x ∈ NODE_FUN_keys) ∧
    (routerSteps a b c d e f g h).take 2 = ["getting_started", "celebrations"] := by
  revert a b c d e f g h
  decide

/-- Finite check behind the step-4-collapse claim. -/
theorem routerSteps_collapse (a b c d e f g h : Bool) :
    routerSteps a b c d e f g h = routerStepsSpec a b c d e f g h := by
  revert a b c d e f g h
  decide

-- ---------------------------------------------------------------------------
-- Claim theorems
-- ---------------------------------------------------------------------------

/-- C2.  For every profile and day context, `router_order` returns a
duplicate-free list of known agent names whose first two entries are the
getting-started and celebrations agents, in that order. -/
theorem router_order_total (profile : Profile) (ctx : DayContext) :
    (router_order profile ctx).Nodup ∧
    (∀ x ∈ router_order profile ctx, x ∈ NODE_FUN_keys) ∧
    (router_order profile ctx).take 2 = ["getting_started", "celebrations"] := by
  simp only [router_order]
  exact routerSteps_total _ _ _ _ _ _ _ _

/-- C9.  The density/load sub-condition in step 4 of `router_order` has no
effect: the router with that sub-condition removed (`router_order_spec`,
which always uses the second-to-last placement when evening engagement is
false) is extensionally equal to the implemented router. -/
theorem router_density_branch_collapse (profile : Profile) (ctx : DayContext) :
    router_order profile ctx = router_order_spec profile ctx := by
  simp only [router_order, router_order_spec]
  exact routerSteps_collapse _ _ _ _ _ _ _ _

/-- C10.  `compute_day_context` ignores its date argument on every
calendar-derived field: the calendar lookup drops the date (always the
profile's first stored day), so for any two date strings all fields other
than `weekday`/`is_weekend` coincide. -/
theorem day_context_date_independent (p : Profile) (d1 d2 : String) :
    calendar_lookup p d1 = calendar_lookup p d2 ∧
    (compute_day_context p d1).map (·.events) = (compute_day_context p d2).map (·.events) ∧
    (compute_day_context p d1).map (·.event_count) = (compute_day_context p d2).map (·.event_count) ∧
    (compute_day_context p d1).map (·.first_event_time) = (compute_day_context p d2).map (·.first_event_time) ∧
    (compute_day_context p d1).map (·.last_event_time) = (compute_day_context p d2).map (·.last_event_time) ∧
    (compute_day_context p d1).map (·.first_event_title) = (compute_day_context p d2).map (·.first_event_title) ∧
    (compute_day_context p d1).map (·.last_event_title) = (compute_day_context p d2).map (·.last_event_title) ∧
    (compute_day_context p d1).map (·.free_blocks) = (compute_day_context p d2).map (·.free_blocks) ∧
    (compute_day_context p d1).map (·.longest_block) = (compute_day_context p d2).map (·.longest_block) ∧
    (compute_day_context p d1).map (·.focus_windows) = (compute_day_context p d2).map (·.focus_windows) ∧
    (compute_day_context p d1).map (·.day_load) = (compute_day_context p d2).map (·.day_load) ∧
    (compute_day_context p d1).map (·.meeting_density) = (compute_day_context p d2).map (·.meeting_density) ∧
    (compute_day_context p d1).map (·.event_types) = (compute_day_context p d2).map (·.event_types) := by
  obtain ⟨days, meta⟩ := p
  rcases days with _ | ⟨_ | ⟨b, bs⟩⟩ <;>
    exact ⟨rfl, rfl, rfl, rfl, rfl, rfl, rfl, rfl, rfl, rfl, rfl, rfl, rfl⟩

/-- C8.  The `change_date` edit sets the date and clears availability,
time options and the chosen time, and changes nothing else: the result is
exactly the input plan with those four fields updated. -/
theorem change_date_edit_frame (rw : Rewriter) (plan : Plan) (d : String)
    (h : d ≠ "") :
    apply_edit rw plan (.change_date d) =
      { plan with date := some d, availability := none,
                  time_options := none, time := none } := by
  simp [apply_edit, h]

/-- Witness for C8 at a concrete date change. -/
theorem change_date_edit_frame_witness :
    apply_edit idRewriter steadyPlan (.change_date "2025-07-01") =
      { steadyPlan with date := some "2025-07-01", availability := none,
                        time_options := none, time := none } :=
  change_date_edit_frame idRewriter steadyPlan "2025-07-01" (by decide)

/-- C1.  For the Scenario B plan (venue "Home - Backyard dinner", date
2025-06-01, time 19:00) the Send stage sets the stage to `sent` and
generates exactly five `scheduled` TimelineTasks at
decide_menu = 2025-05-29T19:00, grocery_shopping = 2025-05-31T17:00,
wifi_access = 2025-06-01T17:00, secure_locks = 2025-06-01T22:00 and
post_cleanup = 2025-06-01T23:00; and the OpsTimeline is generated only
when the venue contains "home" case-insensitively — in particular the
"Trendy lounge" venue leaves it empty. -/
theorem send_stage_home_ops_schedule :
    (∀ now : Int,
      (node_send_invites now scenarioBPlan).stage = some "sent" ∧
      (node_send_invites now scenarioBPlan).ops_timeline = some
        [{ id := "decide_menu-1748545200"
           kind := "decide_menu"
           title := "Decide on menu and portions"
           scheduledAt := some (dtMinutes 2025 5 29 19 0)
           dueAt := some (dtMinutes 2025 5 29 21 0)
           status := "scheduled"
           notes := "Pick dishes, count vegetarians, finalize portions" },
         { id := "grocery_shopping-1748710800"
           kind := "grocery_shopping"
           title := "Grocery shopping list and order"
           scheduledAt := some (dtMinutes 2025 5 31 17 0)
           dueAt := some (dtMinutes 2025 5 31 18 30)
           status := "scheduled"
           notes := "Create list by menu; schedule delivery or pickup" },
         { id := "wifi_access-1748797200"
           kind := "wifi_access"
           title := "Set up guest Wi‑Fi and QR code"
           scheduledAt := some (dtMinutes 2025 6 1 17 0)
           dueAt := some (dtMinutes 2025 6 1 17 30)
           status := "scheduled"
           notes := "Generate guest SSID and print QR" },
         { id := "secure_locks-1748815200"
           kind := "secure_locks"
           title := "Secure door locks after guests leave"
           scheduledAt := some (dtMinutes 2025 6 1 22 0)
           dueAt := some (dtMinutes 2025 6 1 22 10)
           status := "scheduled"
           notes := "Ensure all smart locks are engaged" },
         { id := "post_cleanup-1748818800"
           kind := "post_cleanup"
           title := "Post-party cleanup and robot vacuum run"
           scheduledAt := some (dtMinutes 2025 6 1 23 0)
           dueAt := some (dtMinutes 2025 6 2 0 0)
           status := "scheduled"
           notes := "Run robot vacuum; tidy kitchen and living room" }]) ∧
    (∀ (now : Int) (plan : Plan), plan.stage = some "ready_to_send" →
      strContains (pyLower (pyOrStr plan.venue "")) "home" = false →
      (node_send_invites now plan).ops_timeline = plan.ops_timeline) ∧
    (∀ now : Int,
      (node_send_invites now loungePlan).stage = some "sent" ∧
      (node_send_invites now loungePlan).ops_timeline = none) := by
  refine ⟨fun now => ⟨rfl, ?_⟩, fun now plan h1 h2 => ?_, fun now => ⟨rfl, rfl⟩⟩
  · rfl
  · unfold node_send_invites
    rw [if_neg (by simp [h1])]
    simp only [h2]
    simp

/-- The tail of the free-block loop produces exactly the pairwise gaps. -/
theorem freeBlocksLoop_some (p : Event) (es : List Event) :
    freeBlocksLoop (some p) es =
      ((p :: es).zip es).map (fun q => mkBlock q.1.time q.2.time) := by
  induction es generalizing p with
  | nil => rfl
  | cons e rest ih => simp [freeBlocksLoop, ih]

/-- The free-block loop is the morning block followed by the gaps. -/
theorem freeBlocksLoop_none (es : List Event) :
    freeBlocksLoop none es = morningBlock es ++ gapBlocks es := by
  cases es with
  | nil => rfl
  | cons e rest =>
    simp only [freeBlocksLoop, morningBlock, gapBlocks, List.tail_cons,
      freeBlocksLoop_some]

/-- C7.  The free blocks of `compute_day_context` are exactly the gaps
between consecutive time-sorted events, plus the synthetic morning block
(06:00 to the first event when it starts after 08:00) and the synthetic
evening block (last event to 22:30 when it is before 20:30); the load is
light/medium/heavy at ≤2/≤4/more events; and for a day with events at
09:00 and 11:30 only, the blocks are 06:00-09:00 (180), 09:00-11:30 (150)
and 11:30-22:30 (660) with load "light". -/
theorem free_blocks_structure :
    (∀ es : List Event,
      computeFreeBlocks es = morningBlock es ++ gapBlocks es ++ eveningBlock es) ∧
    (∀ (p : Profile) (d : String),
      (compute_day_context p d).map (·.day_load) =
        (compute_day_context p d).map (fun ctx =>
          if ctx.event_count ≤ 2 then "light"
          else if ctx.event_count ≤ 4 then "medium" else "heavy")) ∧
    (compute_day_context scenarioDProfile "2025-06-07").map (·.free_blocks) =
      some [⟨"06:00", "09:00", 180⟩, ⟨"09:00", "11:30", 150⟩,
            ⟨"11:30", "22:30", 660⟩] ∧
    (compute_day_context scenarioDProfile "2025-06-07").map (·.day_load) =
      some "light" := by
  refine ⟨fun es => ?_, fun p d => ?_, by decide, by decide⟩
  · show freeBlocksLoop none es ++ eveningBlock es = _
    rw [freeBlocksLoop_none, List.append_assoc]
  · obtain ⟨days, meta⟩ := p
    rcases days with _ | ⟨_ | ⟨b, bs⟩⟩ <;> rfl

/-- `pyOrList (some l) []` is `l`. -/
theorem pyOrList_some_nil {α : Type} (l : List α) : pyOrList (some l) [] = l := by
  cases l <;> simp [pyOrList]

/-- Invariants of the task loop: the processed list stays within the
remaining step budget, the done-count grows by at most the remaining
budget, every task is either untouched or was a due scheduled task now
marked done (futures and non-scheduled tasks are untouched), and the
number of processed tasks is exactly the remaining budget capped by the
number of due scheduled tasks — only those consume the budget. -/
theorem tick_go_spec (now : Int) (maxSteps : Nat) (inv : List String)
    (sp : Option String) :
    ∀ (ts : List TimelineTask) (steps : Nat) (ops : List (String × OpsResult)),
    (tick_go now maxSteps inv sp ts steps ops).2.1.length ≤ maxSteps - steps ∧
    (tick_go now maxSteps inv sp ts steps ops).1.countP
        (fun t => t.status == "done") ≤
      ts.countP (fun t => t.status == "done") + (maxSteps - steps) ∧
    List.Forall₂ (fun t t' =>
      (t.status ≠ "scheduled" → t' = t) ∧
      (t.status = "scheduled" → now < t.scheduledAt.getD now → t' = t) ∧
      (t' = t ∨ (t.status = "scheduled" ∧ t.scheduledAt.getD now ≤ now ∧
        t'.status = "done"))) ts (tick_go now maxSteps inv sp ts steps ops).1 ∧
    (tick_go now maxSteps inv sp ts steps ops).2.1.length =
      min (maxSteps - steps)
        (ts.countP (fun t =>
          t.status == "scheduled" && decide (t.scheduledAt.getD now ≤ now))) := by
  intro ts
  induction ts with
  | nil =>
    intro steps ops
    exact ⟨by simp [tick_go], by simp [tick_go], by simp [tick_go],
      by simp [tick_go]⟩
  | cons t rest ih =>
    intro steps ops
    by_cases hb : maxSteps ≤ steps
    · rw [tick_go, if_pos hb]
      refine ⟨by simp, by simp, ?_, ?_⟩
      · exact List.forall₂_same.mpr (fun x _ =>
          ⟨fun _ => rfl, fun _ _ => rfl, Or.inl rfl⟩)
      · simp [Nat.sub_eq_zero_of_le hb]
    · by_cases hs : t.status ≠ "scheduled"
      · rw [tick_go, if_neg hb, if_pos hs]
        obtain ⟨ih1, ih2, ih3, ih4⟩ := ih steps ops
        have hpred : (t.status == "scheduled" &&
            decide (t.scheduledAt.getD now ≤ now)) = false := by
          simp [hs]
        refine ⟨by simpa using ih1, ?_, ?_, ?_⟩
        · simp only [List.countP_cons]
          omega
        · exact List.Forall₂.cons ⟨fun _ => rfl, fun _ _ => rfl, Or.inl rfl⟩ ih3
        · simp only [List.countP_cons, hpred]
          simpa using ih4
      · rw [not_not] at hs
        by_cases hd : t.scheduledAt.getD now ≤ now
        · rw [tick_go, if_neg hb, if_neg (by simpa using hs), if_pos hd]
          obtain ⟨ih1, ih2, ih3, ih4⟩ :=
            ih (steps + 1) (opsSet ops t.kind (run_task now inv sp ops t.kind))
          have hpred : (t.status == "scheduled" &&
              decide (t.scheduledAt.getD now ≤ now)) = true := by
            simp [hs, hd]
          refine ⟨?_, ?_, ?_, ?_⟩
          · simp only [List.length_cons]
            omega
          · simp only [List.countP_cons, hs]
            simp
            omega
          · exact List.Forall₂.cons
              ⟨fun h => absurd hs h, fun _ hlt => absurd hd (not_le.mpr hlt),
               Or.inr ⟨hs, hd, rfl⟩⟩ ih3
          · simp only [List.length_cons, List.countP_cons, hpred, if_true]
            omega
        · rw [tick_go, if_neg hb, if_neg (by simpa using hs), if_neg hd]
          obtain ⟨ih1, ih2, ih3, ih4⟩ := ih steps ops
          have hpred : (t.status == "scheduled" &&
              decide (t.scheduledAt.getD now ≤ now)) = false := by
            simp [hd]
          refine ⟨by simpa using ih1, ?_, ?_, ?_⟩
          · simp only [List.countP_cons]
            omega
          · refine List.Forall₂.cons
              ⟨fun h => absurd hs h, fun _ _ => rfl, Or.inl rfl⟩ ih3
          · simp only [List.countP_cons, hpred]
            simpa using ih4

/-- C3.  A single Tick processes (and transitions to `done`) at most
`maxSteps` tasks — exactly `min maxSteps` of the scheduled tasks that are
due, so only due scheduled tasks consume the step budget; every task is
either untouched or was a due scheduled task now `done` — in particular
a scheduled task whose `scheduledAt` lies in the future is left
`scheduled` and unchanged; and the returned remaining count is the number
of tasks still `scheduled` after the tick. -/
theorem tick_budget_frame_remaining (now : Int) (maxSteps : Nat) (plan : Plan) :
    (tick_timeline now maxSteps plan).2.1.length ≤ maxSteps ∧
    (tick_timeline now maxSteps plan).2.1.length =
      min maxSteps ((pyOrList plan.ops_timeline []).countP (fun t =>
        t.status == "scheduled" && decide (t.scheduledAt.getD now ≤ now))) ∧
    ((tick_timeline now maxSteps plan).1.ops_timeline.getD []).countP
        (fun t => t.status == "done") ≤
      (pyOrList plan.ops_timeline []).countP (fun t => t.status == "done") +
        maxSteps ∧
    List.Forall₂ (fun t t' =>
      (t.status ≠ "scheduled" → t' = t) ∧
      (t.status = "scheduled" → now < t.scheduledAt.getD now → t' = t) ∧
      (t' = t ∨ (t.status = "scheduled" ∧ t.scheduledAt.getD now ≤ now ∧
        t'.status = "done")))
      (pyOrList plan.ops_timeline [])
      ((tick_timeline now maxSteps plan).1.ops_timeline.getD []) ∧
    (tick_timeline now maxSteps plan).2.2 =
      (((tick_timeline now maxSteps plan).1.ops_timeline.getD []).filter
        (fun t => t.status = "scheduled")).length := by
  obtain ⟨h1, h2, h3, h4⟩ := tick_go_spec now maxSteps (plan.invitees.getD [])
    plan.spouse_name (pyOrList plan.ops_timeline []) 0 plan.ops
  exact ⟨h1, h4, h2, h3, rfl⟩

/-- C4.  Across any sequence of Tick calls with non-decreasing `now`
values, a task that is not `scheduled` (in particular a `done` task) is
never touched again: it keeps its exact record, so the set of `done`
tasks only grows and a `done` task is never re-executed. -/
theorem tick_done_monotone (plan : Plan) (calls : List (Int × Nat))
    (hchain : List.Chain' (· ≤ ·) (calls.map Prod.fst)) (i : Nat)
    (h1 : i < (pyOrList plan.ops_timeline []).length)
    (hstat : ((pyOrList plan.ops_timeline []).get ⟨i, h1⟩).status ≠ "scheduled") :
    ∃ h2 : i < (pyOrList (tick_seq plan calls).ops_timeline []).length,
      (pyOrList (tick_seq plan calls).ops_timeline []).get ⟨i, h2⟩ =
        (pyOrList plan.ops_timeline []).get ⟨i, h1⟩ := by
  induction calls generalizing plan with
  | nil => exact ⟨h1, rfl⟩
  | cons c rest ih =>
    obtain ⟨_, _, hrel, _⟩ := tick_go_spec c.1 c.2 (plan.invitees.getD [])
      plan.spouse_name (pyOrList plan.ops_timeline []) 0 plan.ops
    obtain ⟨hlen, hget⟩ := List.forall₂_iff_get.mp hrel
    set p1 := (tick_timeline c.1 c.2 plan).1 with hp1
    have hts : pyOrList p1.ops_timeline [] =
        (tick_go c.1 c.2 (plan.invitees.getD []) plan.spouse_name
          (pyOrList plan.ops_timeline []) 0 plan.ops).1 := by
      rw [hp1]
      exact pyOrList_some_nil _
    have h1' : i < (pyOrList p1.ops_timeline []).length := by
      rw [hts, ← hlen]; exact h1
    have heq : (pyOrList p1.ops_timeline []).get ⟨i, h1'⟩ =
        (pyOrList plan.ops_timeline []).get ⟨i, h1⟩ := by
      have hg := List.get_of_eq hts ⟨i, h1'⟩
      rw [hg]
      exact (hget i h1 (by rw [← hlen]; exact h1)).1 hstat
    have hstat' : ((pyOrList p1.ops_timeline []).get ⟨i, h1'⟩).status ≠
        "scheduled" := by
      rw [heq]; exact hstat
    obtain ⟨h2, hfin⟩ := ih p1 hchain.tail h1' hstat'
    refine ⟨h2, ?_⟩
    show (pyOrList (tick_seq p1 rest).ops_timeline []).get ⟨i, h2⟩ = _
    rw [hfin, heq]

/-- Appending emails that are all already present is a no-op. -/
theorem addEmails_noop (l : List String) :
    ∀ emails, (∀ e ∈ emails, e ∈ l) → addEmails l emails = l := by
  intro emails
  induction emails with
  | nil => intro _; rfl
  | cons e es ih =>
    intro h
    have he : l.contains e = true := by
      have := h e (List.mem_cons_self e es)
      simpa [List.elem_iff] using this
    show addEmails (if l.contains e then l else l ++ [e]) es = l
    rw [he]
    exact ih (fun x hx => h x (List.mem_cons_of_mem e hx))

/-- C5 counterexample.  A no-op `add_invitees` (the email is already on
the list) does not leave the plan unchanged: on a plan whose date was set
explicitly (2025-06-20), the pipeline re-run inside `nl_command` rewrites
the date to the `now + 14 days` default (2025-06-15). -/
theorem noop_action_changes_date :
    divergedPlan.date = some "2025-06-20" ∧
    (divergedPlan.invitees.getD []).contains "mia@x.com" = true ∧
    (nl_apply nlNow idRewriter demoProfile divergedPlan
        (.add_invitees ["mia@x.com"])).map (fun p => p.date) =
      some (some "2025-06-15") := by
  exact ⟨rfl, rfl, rfl⟩

/-- C5 (amended).  A no-op `add_invitees` — every email already present —
leaves the plan unchanged whenever the plan is a fixed point of the
pipeline re-run (in particular its date and budget already hold the
re-run defaults). -/
theorem noop_add_invitees_fixed_point (now : Int) (rw : Rewriter)
    (profile : Profile) (plan : Plan) (emails : List String)
    (hmem : ∀ e ∈ emails, e ∈ plan.invitees.getD [])
    (hfix : run_pipeline now profile { invitees := plan.invitees.getD [] } plan =
      some plan) :
    nl_apply now rw profile plan (.add_invitees emails) = some plan := by
  have hedit : apply_edit rw plan (.add_invitees emails) = plan := by
    cases emails with
    | nil => simp [apply_edit]
    | cons e es =>
      simp only [apply_edit, List.isEmpty_cons, Bool.false_eq_true,
        not_false_eq_true, if_true]
      cases hinv : plan.invitees with
      | none =>
        have := hmem e (List.mem_cons_self e es)
        rw [hinv] at this
        simp at this
      | some l =>
        have hnoop : addEmails l (e :: es) = l := by
          refine addEmails_noop l (e :: es) (fun x hx => ?_)
          have := hmem x hx
          rwa [hinv] at this
        have hsome : some (addEmails ((some l).getD []) (e :: es)) =
            plan.invitees := by
          rw [Option.getD_some, hnoop, hinv]
        rw [hsome]
  show run_pipeline now profile
    { invitees := (apply_edit rw plan (.add_invitees emails)).invitees.getD [] }
    (apply_edit rw plan (.add_invitees emails)) = some plan
  rw [hedit]
  exact hfix

/-- Witness for the amended C5: on the concrete fixed-point plan, the
duplicate `add_invitees` returns the plan unchanged. -/
theorem noop_add_invitees_fixed_point_witness :
    nl_apply nlNow idRewriter demoProfile steadyPlan
      (.add_invitees ["mia@x.com"]) = some steadyPlan :=
  noop_add_invitees_fixed_point nlNow idRewriter demoProfile steadyPlan
    ["mia@x.com"] (by decide) (by rfl)

/-- No `/api/nl` edit touches the ops timeline. -/
theorem apply_edit_ops_timeline (rw : Rewriter) (plan : Plan) (a : NLAction) :
    (apply_edit rw plan a).ops_timeline = plan.ops_timeline := by
  cases a <;> simp only [apply_edit] <;>
    (repeat' split) <;> rfl

/-- `node_calendar` leaves the ops timeline unchanged. -/
theorem node_calendar_ops_timeline (now : Int) (profile : Profile)
    (params : Params) (plan p1 : Plan)
    (h : node_calendar now profile params plan = some p1) :
    p1.ops_timeline = plan.ops_timeline := by
  simp only [node_calendar] at h
  cases hc : calendar_lookup profile
      (pyOrStr params.event_date (isoOfDays (now / 1440 + 14))) with
  | none => rw [hc] at h; simp at h
  | some evs =>
    rw [hc] at h
    simp only [Option.map_some'] at h
    obtain rfl := Option.some.inj h
    (repeat' split) <;> rfl

/-- `node_plan_event` leaves the ops timeline unchanged. -/
theorem node_plan_event_ops_timeline (profile : Profile) (params : Params)
    (plan : Plan) :
    (node_plan_event profile params plan).ops_timeline = plan.ops_timeline := rfl

/-- `node_compose_invites` leaves the ops timeline unchanged. -/
theorem node_compose_ops_timeline (profile : Profile) (plan : Plan) :
    (node_compose_invites profile plan).ops_timeline = plan.ops_timeline := by
  simp only [node_compose_invites]
  (repeat' split) <;> rfl

/-- After the compose gates, the stage is never `ready_to_send` (it is
one of `review_theme_venue`, `pick_time`, `select_invitees` or
`review_invite`), so a pipeline re-run can never enter the send branch. -/
theorem node_compose_stage_not_ready (profile : Profile) (plan : Plan) :
    (node_compose_invites profile plan).stage ≠ some "ready_to_send" := by
  simp only [node_compose_invites]
  (repeat' split) <;> simp_all

/-- `node_send_invites` is the identity off the `ready_to_send` stage. -/
theorem node_send_skip (now : Int) (plan : Plan)
    (h : plan.stage ≠ some "ready_to_send") :
    node_send_invites now plan = plan := by
  simp only [node_send_invites]
  rw [if_pos h]

/-- C6.  The ops timeline is never recreated by `ApplyAction`: every
`/api/nl` action followed by the pipeline re-run preserves the plan's
`ops_timeline` exactly (no edit touches it, and the compose gates rewrite
the stage before the send node, so the home-ops batch is never
regenerated — task ids, schedules and statuses are kept). -/
theorem ops_timeline_never_recreated (now : Int) (rw : Rewriter)
    (profile : Profile) (plan : Plan) (action : NLAction) (p' : Plan)
    (h : nl_apply now rw profile plan action = some p') :
    p'.ops_timeline = plan.ops_timeline := by
  simp only [nl_apply, run_pipeline] at h
  cases hc : node_calendar now profile
      { invitees := (apply_edit rw plan action).invitees.getD [] }
      (apply_edit rw plan action) with
  | none => rw [hc] at h; simp at h
  | some p1 =>
    rw [hc] at h
    simp only [Option.map_some'] at h
    obtain rfl := Option.some.inj h
    rw [node_send_skip _ _ (node_compose_stage_not_ready _ _),
      node_compose_ops_timeline, node_plan_event_ops_timeline,
      node_calendar_ops_timeline now profile _ _ p1 hc,
      apply_edit_ops_timeline]

/-- Witness for C6: a repeated `confirm_send` on a sent plan with an
executed home-ops task leaves the ops timeline untouched. -/
theorem ops_timeline_never_recreated_witness :
    (nl_apply nlNow idRewriter demoProfile sentOpsPlan .confirm_send).map
      (fun p => p.ops_timeline) = some sentOpsPlan.ops_timeline := by
  rcases hres : nl_apply nlNow idRewriter demoProfile sentOpsPlan .confirm_send
    with _ | p'
  · exact absurd hres (by decide)
  · simp only [Option.map_some']
    rw [ops_timeline_never_recreated nlNow idRewriter demoProfile sentOpsPlan
      .confirm_send p' hres]

/-- Witness for C4: over two ticks at non-decreasing times, the already
executed first task of a sent plan keeps its exact record. -/
theorem tick_done_monotone_witness :
    ∃ h2 : 0 <
        (pyOrList (tick_seq sentOpsPlan [((0 : Int), 1), ((5 : Int), 2)]).ops_timeline []).length,
      (pyOrList (tick_seq sentOpsPlan [((0 : Int), 1), ((5 : Int), 2)]).ops_timeline []).get
          ⟨0, h2⟩ =
        (pyOrList sentOpsPlan.ops_timeline []).get ⟨0, by decide⟩ :=
  tick_done_monotone sentOpsPlan [((0 : Int), 1), ((5 : Int), 2)]
    (by simp [List.chain'_cons]) 0 (by decide) (by decide)
